import Mathlib

/-!
A shallow embedding of `src/erizo/src/erizo/MediaDefinitions.h` (the media-plane
core of the licode SFU), together with theorems settling the specification
claims about it.

Modelling conventions:
* `char` bytes are modelled as `UInt8`; a `const char *` source buffer is a
  total function `Nat → UInt8` (raw memory at the pointer, one byte per offset).
* `uint32_t` SSRC identifiers are modelled as `Nat`: the code only stores and
  compares them, never performs arithmetic, so no wrap-around is observable.
* Raw pointers (`MediaSink*`, `FeedbackSink*`, `FeedbackSource*`) are modelled
  as `Option Nat` (an optional address); `nullptr` is `none`.
* `clock::now()` is impure, so every constructor that stamps the current time
  takes the clock reading as an explicit parameter.
* Out-of-range `std::vector::operator[]` is undefined behaviour in C++; the
  embedding totalises it with `List.getD`/`List.set` and every theorem about it
  carries the non-emptiness precondition the C++ caller must guarantee.
-/

namespace Erizo

/-- `enum packetType` from MediaDefinitions.h. -/
inductive packetType where
  | VIDEO_PACKET
  | AUDIO_PACKET
  | OTHER_PACKET
deriving DecidableEq, Repr

/-- `struct dataPacket`. The 1500-byte array `char data[1500]` is modelled as a
function from offsets to bytes; only offsets `< 1500` correspond to the array. -/
structure dataPacket where
  comp : Int
  data : Nat → UInt8
  length : Int
  type : packetType
  received_time_ms : Nat
  compatible_spatial_layers : List Int
  compatible_temporal_layers : List Int
  is_keyframe : Bool

/-- `memcpy(data, data_, length_)` into the packet's own (uninitialized)
1500-byte array: the first `n` bytes come from the source buffer; bytes past
the copied prefix are uninitialized in C++ and modelled as zero. -/
def memcpyBytes (src : Nat → UInt8) (n : Nat) : Nat → UInt8 :=
  fun i => if i < n then src i else 0

/-- The five-argument constructor
`dataPacket(int comp_, const char *data_, int length_, packetType type_, uint64_t received_time_ms_)`:
caller supplies the capture timestamp explicitly. -/
def dataPacket.mkWithTime (comp_ : Int) (data_ : Nat → UInt8) (length_ : Int)
    (type_ : packetType) (received_time_ms_ : Nat) : dataPacket :=
  { comp := comp_
    data := memcpyBytes data_ length_.toNat
    length := length_
    type := type_
    received_time_ms := received_time_ms_
    compatible_spatial_layers := []
    compatible_temporal_layers := []
    is_keyframe := false }

/-- The four-argument constructor
`dataPacket(int comp_, const char *data_, int length_, packetType type_)`:
stamps `received_time_ms` from `clock::now()`, passed here as `now_ms`. -/
def dataPacket.mkTyped (comp_ : Int) (data_ : Nat → UInt8) (length_ : Int)
    (type_ : packetType) (now_ms : Nat) : dataPacket :=
  { comp := comp_
    data := memcpyBytes data_ length_.toNat
    length := length_
    type := type_
    received_time_ms := now_ms
    compatible_spatial_layers := []
    compatible_temporal_layers := []
    is_keyframe := false }

/-- The three-argument constructor
`dataPacket(int comp_, const unsigned char *data_, int length_)`:
defaults the kind to `VIDEO_PACKET` and stamps `received_time_ms` from
`clock::now()`, passed here as `now_ms`. -/
def dataPacket.mkUnsigned (comp_ : Int) (data_ : Nat → UInt8) (length_ : Int)
    (now_ms : Nat) : dataPacket :=
  { comp := comp_
    data := memcpyBytes data_ length_.toNat
    length := length_
    type := packetType.VIDEO_PACKET
    received_time_ms := now_ms
    compatible_spatial_layers := []
    compatible_temporal_layers := []
    is_keyframe := false }

/-- `dataPacket::belongsToSpatialLayer`: `std::find` over
`compatible_spatial_layers`, returns whether the iterator is not `end()`,
i.e. list membership. Pure: it only reads the packet. -/
def dataPacket.belongsToSpatialLayer (p : dataPacket) (spatial_layer_ : Int) : Bool :=
  p.compatible_spatial_layers.contains spatial_layer_

/-- `dataPacket::belongsToTemporalLayer`: `std::find` over
`compatible_temporal_layers`. Pure: it only reads the packet. -/
def dataPacket.belongsToTemporalLayer (p : dataPacket) (temporal_layer_ : Int) : Bool :=
  p.compatible_temporal_layers.contains temporal_layer_

/-- State of `class MediaSink` (the fields declared in MediaDefinitions.h). -/
structure MediaSink where
  audio_sink_ssrc : Nat
  video_sink_ssrc : Nat
  sink_fb_source : Option Nat

/-- `MediaSink() : audio_sink_ssrc_{0}, video_sink_ssrc_{0}, sink_fb_source_{nullptr}`. -/
def MediaSink.init : MediaSink :=
  { audio_sink_ssrc := 0, video_sink_ssrc := 0, sink_fb_source := none }

def MediaSink.getVideoSinkSSRC (st : MediaSink) : Nat := st.video_sink_ssrc

def MediaSink.setVideoSinkSSRC (st : MediaSink) (ssrc : Nat) : MediaSink :=
  { st with video_sink_ssrc := ssrc }

def MediaSink.getAudioSinkSSRC (st : MediaSink) : Nat := st.audio_sink_ssrc

def MediaSink.setAudioSinkSSRC (st : MediaSink) (ssrc : Nat) : MediaSink :=
  { st with audio_sink_ssrc := ssrc }

def MediaSink.isVideoSinkSSRC (st : MediaSink) (ssrc : Nat) : Bool :=
  ssrc == st.video_sink_ssrc

def MediaSink.isAudioSinkSSRC (st : MediaSink) (ssrc : Nat) : Bool :=
  ssrc == st.audio_sink_ssrc

def MediaSink.getFeedbackSource (st : MediaSink) : Option Nat := st.sink_fb_source

/-- State of `class FeedbackSource`: the single `FeedbackSink* fb_sink_` field. -/
structure FeedbackSource where
  fb_sink : Option Nat

/-- `FeedbackSource(): fb_sink_{nullptr}`. -/
def FeedbackSource.init : FeedbackSource := { fb_sink := none }

/-- `FeedbackSource::setFeedbackSink` — note: assigns `fb_sink_` with no lock. -/
def FeedbackSource.setFeedbackSink (st : FeedbackSource) (sink : Option Nat) :
    FeedbackSource :=
  { st with fb_sink := sink }

/-- State of `class MediaSource` (the fields declared in MediaDefinitions.h). -/
structure MediaSource where
  audio_source_ssrc : Nat
  video_source_ssrc_list : List Nat
  video_sink : Option Nat
  audio_sink : Option Nat
  source_fb_sink : Option Nat

/-- `MediaSource() : audio_source_ssrc_{0},
video_source_ssrc_list_{std::vector<uint32_t>(1, 0)}, video_sink_{nullptr},
audio_sink_{nullptr}, source_fb_sink_{nullptr}`. -/
def MediaSource.init : MediaSource :=
  { audio_source_ssrc := 0
    video_source_ssrc_list := List.replicate 1 0
    video_sink := none
    audio_sink := none
    source_fb_sink := none }

def MediaSource.setAudioSink (st : MediaSource) (audio_sink : Option Nat) : MediaSource :=
  { st with audio_sink := audio_sink }

def MediaSource.setVideoSink (st : MediaSource) (video_sink : Option Nat) : MediaSource :=
  { st with video_sink := video_sink }

def MediaSource.getFeedbackSink (st : MediaSource) : Option Nat := st.source_fb_sink

/-- `getVideoSourceSSRC`: `return video_source_ssrc_list_[0];`. Indexing an
empty vector is UB in C++; theorems assume the list is non-empty. -/
def MediaSource.getVideoSourceSSRC (st : MediaSource) : Nat :=
  st.video_source_ssrc_list.getD 0 0

/-- `setVideoSourceSSRC`: `video_source_ssrc_list_[0] = ssrc;`. Same UB caveat
for the empty list (where `List.set` is a no-op). -/
def MediaSource.setVideoSourceSSRC (st : MediaSource) (ssrc : Nat) : MediaSource :=
  { st with video_source_ssrc_list := st.video_source_ssrc_list.set 0 ssrc }

/-- `getVideoSourceSSRCList`: returns the list (by copy in C++; the aliasing
aspect is modelled separately with an explicit heap below). -/
def MediaSource.getVideoSourceSSRCList (st : MediaSource) : List Nat :=
  st.video_source_ssrc_list

/-- `setVideoSourceSSRCList`: `video_source_ssrc_list_ = new_ssrc_list;` —
wholesale replacement by the caller-supplied vector. -/
def MediaSource.setVideoSourceSSRCList (st : MediaSource) (new_ssrc_list : List Nat) :
    MediaSource :=
  { st with video_source_ssrc_list := new_ssrc_list }

def MediaSource.getAudioSourceSSRC (st : MediaSource) : Nat := st.audio_source_ssrc

def MediaSource.setAudioSourceSSRC (st : MediaSource) (ssrc : Nat) : MediaSource :=
  { st with audio_source_ssrc := ssrc }

/-- `isVideoSourceSSRC`: `std::find_if` over the whole list with an equality
lambda, i.e. list membership. -/
def MediaSource.isVideoSourceSSRC (st : MediaSource) (ssrc : Nat) : Bool :=
  st.video_source_ssrc_list.contains ssrc

def MediaSource.isAudioSourceSSRC (st : MediaSource) (ssrc : Nat) : Bool :=
  st.audio_source_ssrc == ssrc

/-- The state-mutating public operations of `MediaSource`, as one step type
(the getters and the abstract `sendPLI`/`close` do not touch
`video_source_ssrc_list_`). -/
inductive SourceOp where
  | setAudioSink (s : Option Nat)
  | setVideoSink (s : Option Nat)
  | setVideoSourceSSRC (s : Nat)
  | setVideoSourceSSRCList (l : List Nat)
  | setAudioSourceSSRC (s : Nat)

def SourceOp.apply : SourceOp → MediaSource → MediaSource
  | .setAudioSink s, st => st.setAudioSink s
  | .setVideoSink s, st => st.setVideoSink s
  | .setVideoSourceSSRC s, st => st.setVideoSourceSSRC s
  | .setVideoSourceSSRCList l, st => st.setVideoSourceSSRCList l
  | .setAudioSourceSSRC s, st => st.setAudioSourceSSRC s

/-- The invariant claimed for the simulcast list: at least one slot. -/
def nonEmptySSRCList (st : MediaSource) : Prop :=
  st.video_source_ssrc_list ≠ []

/-- Side condition under which an operation is claimed (after amendment) to
preserve `nonEmptySSRCList`: `setVideoSourceSSRCList` must be given a
non-empty list; every other operation is unconditional. -/
def SourceOp.listGuard : SourceOp → Prop
  | .setVideoSourceSSRCList l => l ≠ []
  | _ => True

instance : DecidablePred SourceOp.listGuard := by
  intro op
  cases op <;> simp [SourceOp.listGuard] <;> infer_instance

/-! ### Lock-acquisition traces

`Monitor` contributes `boost::mutex monitor_mutex_`; each accessor body either
opens with `boost::mutex::scoped_lock lock(monitor_mutex_)` — acquire on entry,
release when the scope exits — or touches the field bare.  Each method body is
transcribed as the sequence of lock and shared-field-access events it performs,
in program order. -/

/-- The shared mutable fields of `MediaSink`, `MediaSource` and
`FeedbackSource`. -/
inductive GuardField where
  | audio_sink_ssrc_fld
  | video_sink_ssrc_fld
  | sink_fb_source_fld
  | audio_source_ssrc_fld
  | video_source_ssrc_list_fld
  | video_sink_fld
  | audio_sink_fld
  | source_fb_sink_fld
  | fb_sink_fld
deriving DecidableEq, Repr

/-- Events a method body performs on the monitor mutex and the shared fields. -/
inductive GuardEvent where
  | lock
  | unlock
  | read (f : GuardField)
  | write (f : GuardField)
deriving DecidableEq, Repr

/-- Walk a trace tracking the lock-nesting depth: every field access must occur
at positive depth, every unlock must match an acquire, and the depth must be
back to zero when the method exits. -/
def checkGuarded : List GuardEvent → Nat → Bool
  | [], d => d == 0
  | .lock :: rest, d => checkGuarded rest (d + 1)
  | .unlock :: rest, d + 1 => checkGuarded rest d
  | .unlock :: _, 0 => false
  | .read _ :: rest, d => decide (0 < d) && checkGuarded rest d
  | .write _ :: rest, d => decide (0 < d) && checkGuarded rest d

/-- A method acquires the guard for the duration of every shared access and
releases it on exit. -/
def guardedTrace (tr : List GuardEvent) : Bool :=
  checkGuarded tr 0

def getVideoSinkSSRC_trace : List GuardEvent :=
  [.lock, .read .video_sink_ssrc_fld, .unlock]

def setVideoSinkSSRC_trace : List GuardEvent :=
  [.lock, .write .video_sink_ssrc_fld, .unlock]

def getAudioSinkSSRC_trace : List GuardEvent :=
  [.lock, .read .audio_sink_ssrc_fld, .unlock]

def setAudioSinkSSRC_trace : List GuardEvent :=
  [.lock, .write .audio_sink_ssrc_fld, .unlock]

/-- `isVideoSinkSSRC` reads `video_sink_ssrc_` with no scoped lock. -/
def isVideoSinkSSRC_trace : List GuardEvent :=
  [.read .video_sink_ssrc_fld]

/-- `isAudioSinkSSRC` reads `audio_sink_ssrc_` with no scoped lock. -/
def isAudioSinkSSRC_trace : List GuardEvent :=
  [.read .audio_sink_ssrc_fld]

def getFeedbackSource_trace : List GuardEvent :=
  [.lock, .read .sink_fb_source_fld, .unlock]

def setAudioSink_trace : List GuardEvent :=
  [.lock, .write .audio_sink_fld, .unlock]

def setVideoSink_trace : List GuardEvent :=
  [.lock, .write .video_sink_fld, .unlock]

def getFeedbackSink_trace : List GuardEvent :=
  [.lock, .read .source_fb_sink_fld, .unlock]

def getVideoSourceSSRC_trace : List GuardEvent :=
  [.lock, .read .video_source_ssrc_list_fld, .unlock]

def setVideoSourceSSRC_trace : List GuardEvent :=
  [.lock, .write .video_source_ssrc_list_fld, .unlock]

def getVideoSourceSSRCList_trace : List GuardEvent :=
  [.lock, .read .video_source_ssrc_list_fld, .unlock]

def setVideoSourceSSRCList_trace : List GuardEvent :=
  [.lock, .write .video_source_ssrc_list_fld, .unlock]

def getAudioSourceSSRC_trace : List GuardEvent :=
  [.lock, .read .audio_source_ssrc_fld, .unlock]

def setAudioSourceSSRC_trace : List GuardEvent :=
  [.lock, .write .audio_source_ssrc_fld, .unlock]

/-- `isVideoSourceSSRC` scans `video_source_ssrc_list_` with no scoped lock. -/
def isVideoSourceSSRC_trace : List GuardEvent :=
  [.read .video_source_ssrc_list_fld]

/-- `isAudioSourceSSRC` reads `audio_source_ssrc_` with no scoped lock. -/
def isAudioSourceSSRC_trace : List GuardEvent :=
  [.read .audio_source_ssrc_fld]

/-- `FeedbackSource::setFeedbackSink` assigns `fb_sink_` with no scoped lock. -/
def setFeedbackSink_trace : List GuardEvent :=
  [.write .fb_sink_fld]

/-- Every getter and setter of shared mutable Sink/Source state declared in
MediaDefinitions.h (the scope of the claim). -/
def sharedStateAccessorTraces : List (List GuardEvent) :=
  [getVideoSinkSSRC_trace, setVideoSinkSSRC_trace,
   getAudioSinkSSRC_trace, setAudioSinkSSRC_trace,
   isVideoSinkSSRC_trace, isAudioSinkSSRC_trace,
   getFeedbackSource_trace,
   setAudioSink_trace, setVideoSink_trace,
   getFeedbackSink_trace,
   getVideoSourceSSRC_trace, setVideoSourceSSRC_trace,
   getVideoSourceSSRCList_trace, setVideoSourceSSRCList_trace,
   getAudioSourceSSRC_trace, setAudioSourceSSRC_trace,
   isVideoSourceSSRC_trace, isAudioSourceSSRC_trace,
   setFeedbackSink_trace]

/-! ### Heap view of the simulcast list

`getVideoSourceSSRCList` returns `std::vector` *by value*: the caller receives
a fresh vector object holding a copy of the contents.  To state that (an
aliasing property invisible to the pure view above), vectors live in an
explicit store: an address indexes a cell, returning by value allocates a
fresh cell copying the contents, and the source's setters write in place
through the source's own address. -/

structure VecHeap where
  cells : List (List Nat)

/-- Dereference a vector address. -/
def VecHeap.lookup (h : VecHeap) (a : Nat) : List Nat :=
  h.cells.getD a []

/-- Materialise a fresh vector object with the given contents. -/
def VecHeap.alloc (h : VecHeap) (v : List Nat) : VecHeap × Nat :=
  (⟨h.cells ++ [v]⟩, h.cells.length)

/-- Overwrite the vector at an address in place. -/
def VecHeap.store (h : VecHeap) (a : Nat) (v : List Nat) : VecHeap :=
  ⟨h.cells.set a v⟩

/-- `getVideoSourceSSRCList` against the store: `return video_source_ssrc_list_;`
with a by-value return type copies the contents into a fresh vector object. -/
def getVideoSourceSSRCList_heap (h : VecHeap) (src : Nat) : VecHeap × Nat :=
  h.alloc (h.lookup src)

/-- `setVideoSourceSSRCList` against the store: assigns the live list in place. -/
def setVideoSourceSSRCList_heap (h : VecHeap) (src : Nat) (v : List Nat) : VecHeap :=
  h.store src v

/-- `setVideoSourceSSRC` against the store: writes slot 0 of the live list. -/
def setVideoSourceSSRC_heap (h : VecHeap) (src : Nat) (s : Nat) : VecHeap :=
  h.store src ((h.lookup src).set 0 s)

/-! ### Concrete delivery implementations

`FeedbackSink::deliverFeedback` / `MediaSink::deliverAudioData` /
`MediaSink::deliverVideoData` are public non-virtual methods whose whole body
is `return this->deliverX_(data_packet);` where `deliverX_` is private pure
virtual.  A concrete implementation is modelled as a record of the overriding
bodies, each a function from the implementation's own state and the packet to
the `int` status and the successor state. -/

structure FeedbackSinkImpl (σ : Type) where
  deliverFeedback_virt : σ → dataPacket → Int × σ

/-- Public `FeedbackSink::deliverFeedback`: `return this->deliverFeedback_(data_packet);`. -/
def FeedbackSinkImpl.deliverFeedback {σ : Type} (c : FeedbackSinkImpl σ)
    (s : σ) (data_packet : dataPacket) : Int × σ :=
  c.deliverFeedback_virt s data_packet

structure MediaSinkImpl (σ : Type) where
  deliverAudioData_virt : σ → dataPacket → Int × σ
  deliverVideoData_virt : σ → dataPacket → Int × σ

/-- Public `MediaSink::deliverAudioData`: `return this->deliverAudioData_(data_packet);`. -/
def MediaSinkImpl.deliverAudioData {σ : Type} (c : MediaSinkImpl σ)
    (s : σ) (data_packet : dataPacket) : Int × σ :=
  c.deliverAudioData_virt s data_packet

/-- Public `MediaSink::deliverVideoData`: `return this->deliverVideoData_(data_packet);`. -/
def MediaSinkImpl.deliverVideoData {σ : Type} (c : MediaSinkImpl σ)
    (s : σ) (data_packet : dataPacket) : Int × σ :=
  c.deliverVideoData_virt s data_packet

/-! ### Concrete instances used by witnesses and counterexamples -/

/-- A concrete source buffer. -/
def exBuf : Nat → UInt8 := fun i => UInt8.ofNat (i + 7)

/-- A buffer agreeing with `exBuf` on the first 3 bytes only. -/
def exBufAlt : Nat → UInt8 := fun i => if i < 3 then UInt8.ofNat (i + 7) else 42

/-- The spec's scenario source: `video_source_ssrc_list = [111, 222]`. -/
def exSource : MediaSource :=
  { audio_source_ssrc := 5
    video_source_ssrc_list := [111, 222]
    video_sink := none
    audio_sink := none
    source_fb_sink := none }

/-- A one-cell store whose only vector is the scenario list `[111, 222]`. -/
def exHeap : VecHeap := ⟨[[111, 222]]⟩

/-- A concrete packet with spatial layers `{0, 1}` and no temporal layers. -/
def exPacket : dataPacket :=
  { comp := 1
    data := fun _ => 0
    length := 200
    type := packetType.VIDEO_PACKET
    received_time_ms := 0
    compatible_spatial_layers := [0, 1]
    compatible_temporal_layers := []
    is_keyframe := false }

/-! ## Theorems settling the claims -/

/-- C1 counterexample: the at-least-one-slot invariant holds in the initial
state but is *not* preserved by `setVideoSourceSSRCList` applied to an
arbitrary caller-supplied list — the empty list is assigned verbatim and
empties `video_source_ssrc_list_`. -/
theorem setVideoSourceSSRCList_empty_breaks_invariant :
    nonEmptySSRCList MediaSource.init ∧
    ¬ nonEmptySSRCList
      (SourceOp.apply (SourceOp.setVideoSourceSSRCList []) MediaSource.init) := by
  constructor
  · simp [nonEmptySSRCList, MediaSource.init]
  · simp [nonEmptySSRCList, SourceOp.apply, MediaSource.setVideoSourceSSRCList]

/-- C1 (amended): the constructor establishes the at-least-one-slot invariant
(`video_source_ssrc_list_` starts as `[0]`), and every state-mutating public
operation preserves it, provided `setVideoSourceSSRCList` is supplied a
non-empty list (with an empty list it empties the list instead). -/
theorem ssrc_list_invariant_preserved (op : SourceOp) (st : MediaSource)
    (hinv : nonEmptySSRCList st) (hguard : op.listGuard) :
    nonEmptySSRCList MediaSource.init ∧ nonEmptySSRCList (op.apply st) := by
  refine ⟨by simp [nonEmptySSRCList, MediaSource.init], ?_⟩
  cases op with
  | setAudioSink s =>
    simpa [SourceOp.apply, MediaSource.setAudioSink, nonEmptySSRCList] using hinv
  | setVideoSink s =>
    simpa [SourceOp.apply, MediaSource.setVideoSink, nonEmptySSRCList] using hinv
  | setVideoSourceSSRC s =>
    simp only [SourceOp.apply, MediaSource.setVideoSourceSSRC, nonEmptySSRCList] at hinv ⊢
    intro hcontra
    exact hinv (by simpa using congrArg List.length hcontra)
  | setVideoSourceSSRCList l =>
    simpa [SourceOp.apply, MediaSource.setVideoSourceSSRCList, nonEmptySSRCList] using hguard
  | setAudioSourceSSRC s =>
    simpa [SourceOp.apply, MediaSource.setAudioSourceSSRC, nonEmptySSRCList] using hinv

/-- Witness for C1 (amended) at a concrete operation and state. -/
theorem ssrc_list_invariant_preserved_witness :
    nonEmptySSRCList MediaSource.init ∧
    nonEmptySSRCList (SourceOp.apply (SourceOp.setVideoSourceSSRC 5) MediaSource.init) :=
  ssrc_list_invariant_preserved (SourceOp.setVideoSourceSSRC 5) MediaSource.init
    (by simp [nonEmptySSRCList, MediaSource.init]) trivial

/-- C2: a `dataPacket` built by the four-argument constructor from a source
buffer and a length within the 1500-byte capacity has its `length` field equal
to the given length, its first `length` payload bytes byte-for-byte equal to
the source buffer's first `length` bytes, and no dependence on the caller's
buffer beyond that copied prefix (two buffers agreeing on the first `length`
bytes yield identical packets — the bytes live in the packet's own storage). -/
theorem dataPacket_construction_copies_bytes (comp_ : Int) (data_ : Nat → UInt8)
    (length_ : Int) (type_ : packetType) (now_ms : Nat)
    (h0 : 0 ≤ length_) (hcap : length_ ≤ 1500) :
    (dataPacket.mkTyped comp_ data_ length_ type_ now_ms).length = length_ ∧
    (∀ i : Nat, (i : Int) < length_ →
      (dataPacket.mkTyped comp_ data_ length_ type_ now_ms).data i = data_ i) ∧
    (∀ data2 : Nat → UInt8, (∀ i : Nat, (i : Int) < length_ → data_ i = data2 i) →
      dataPacket.mkTyped comp_ data_ length_ type_ now_ms =
        dataPacket.mkTyped comp_ data2 length_ type_ now_ms) := by
  refine ⟨rfl, ?_, ?_⟩
  · intro i hi
    simp [dataPacket.mkTyped, memcpyBytes, Int.lt_toNat.mpr hi]
  · intro data2 hagree
    simp only [dataPacket.mkTyped, dataPacket.mk.injEq, and_true, true_and]
    funext i
    simp only [memcpyBytes]
    by_cases hlt : i < length_.toNat
    · simp [hlt, hagree i (Int.lt_toNat.mp hlt)]
    · simp [hlt]

/-- Witness for C2 at a concrete buffer and length 3. -/
theorem dataPacket_construction_copies_bytes_witness :
    (dataPacket.mkTyped 1 exBuf 3 packetType.VIDEO_PACKET 0).length = 3 ∧
    (dataPacket.mkTyped 1 exBuf 3 packetType.VIDEO_PACKET 0).data 1 = exBuf 1 ∧
    dataPacket.mkTyped 1 exBuf 3 packetType.VIDEO_PACKET 0 =
      dataPacket.mkTyped 1 exBufAlt 3 packetType.VIDEO_PACKET 0 := by
  have h := dataPacket_construction_copies_bytes 1 exBuf 3 packetType.VIDEO_PACKET 0
    (by decide) (by decide)
  refine ⟨h.1, h.2.1 1 (by decide), h.2.2 exBufAlt ?_⟩
  intro i hi
  have hi3 : i < 3 := by exact_mod_cast hi
  simp [exBuf, exBufAlt, hi3]

/-- C3: `belongsToSpatialLayer` decides membership in
`compatible_spatial_layers` and `belongsToTemporalLayer` decides membership in
`compatible_temporal_layers`; on an empty set either test is false for every
index.  Both are pure: in this embedding they return a `Bool` and take the
packet unchanged by construction. -/
theorem belongsToLayer_iff_mem (p : dataPacket) (idx : Int) :
    (p.belongsToSpatialLayer idx = true ↔ idx ∈ p.compatible_spatial_layers) ∧
    (p.belongsToTemporalLayer idx = true ↔ idx ∈ p.compatible_temporal_layers) ∧
    (p.compatible_spatial_layers = [] → p.belongsToSpatialLayer idx = false) ∧
    (p.compatible_temporal_layers = [] → p.belongsToTemporalLayer idx = false) := by
  refine ⟨?_, ?_, ?_, ?_⟩
  · simp [dataPacket.belongsToSpatialLayer, List.contains, List.elem_iff]
  · simp [dataPacket.belongsToTemporalLayer, List.contains, List.elem_iff]
  · intro hnil
    simp [dataPacket.belongsToSpatialLayer, hnil]
  · intro hnil
    simp [dataPacket.belongsToTemporalLayer, hnil]

/-- Witness for C3 on the concrete packet with spatial layers `{0, 1}`. -/
theorem belongsToLayer_iff_mem_witness :
    exPacket.belongsToSpatialLayer 0 = true ∧
    exPacket.belongsToTemporalLayer 5 = false :=
  ⟨(belongsToLayer_iff_mem exPacket 0).1.mpr (by decide),
   (belongsToLayer_iff_mem exPacket 5).2.2.2 rfl⟩

/-- C4 counterexample: `FeedbackSource::setFeedbackSink` is a setter of the
attached-feedback-sink reference among the shared-state accessors, and its
body writes `fb_sink_` without ever acquiring the monitor mutex. -/
theorem setFeedbackSink_unguarded :
    setFeedbackSink_trace ∈ sharedStateAccessorTraces ∧
    guardedTrace setFeedbackSink_trace = false := by
  decide

/-- C4 (amended): the SSRC getters/setters, the sink-attachment setters and
the feedback accessors of `MediaSink`/`MediaSource` acquire the guard for the
duration of the access and release it on exit, but the fast-path membership
checks `isVideoSinkSSRC`/`isAudioSinkSSRC`/`isVideoSourceSSRC`/
`isAudioSourceSSRC` read shared state without the guard, and
`FeedbackSource::setFeedbackSink` mutates the attached-feedback-sink
reference without the guard. -/
theorem guard_discipline_of_accessors :
    ([getVideoSinkSSRC_trace, setVideoSinkSSRC_trace,
      getAudioSinkSSRC_trace, setAudioSinkSSRC_trace,
      getFeedbackSource_trace,
      setAudioSink_trace, setVideoSink_trace,
      getFeedbackSink_trace,
      getVideoSourceSSRC_trace, setVideoSourceSSRC_trace,
      getVideoSourceSSRCList_trace, setVideoSourceSSRCList_trace,
      getAudioSourceSSRC_trace, setAudioSourceSSRC_trace].all guardedTrace) = true ∧
    guardedTrace isVideoSinkSSRC_trace = false ∧
    guardedTrace isAudioSinkSSRC_trace = false ∧
    guardedTrace isVideoSourceSSRC_trace = false ∧
    guardedTrace isAudioSourceSSRC_trace = false ∧
    guardedTrace setFeedbackSink_trace = false := by
  decide

/-- C5: on a source whose simulcast list is non-empty, `getVideoSourceSSRC`
returns the element at index 0, and `setVideoSourceSSRC s` replaces exactly
the element at index 0 with `s`, leaving the list length, every other element,
and all other `MediaSource` fields unchanged. -/
theorem primary_ssrc_get_set (st : MediaSource) (s : Nat)
    (h : 0 < st.video_source_ssrc_list.length) :
    st.getVideoSourceSSRC = st.video_source_ssrc_list.get ⟨0, h⟩ ∧
    (st.setVideoSourceSSRC s).video_source_ssrc_list.length =
      st.video_source_ssrc_list.length ∧
    (st.setVideoSourceSSRC s).video_source_ssrc_list.getD 0 0 = s ∧
    (∀ i : Nat, i ≠ 0 →
      (st.setVideoSourceSSRC s).video_source_ssrc_list.getD i 0 =
        st.video_source_ssrc_list.getD i 0) ∧
    (st.setVideoSourceSSRC s).audio_source_ssrc = st.audio_source_ssrc ∧
    (st.setVideoSourceSSRC s).video_sink = st.video_sink ∧
    (st.setVideoSourceSSRC s).audio_sink = st.audio_sink ∧
    (st.setVideoSourceSSRC s).source_fb_sink = st.source_fb_sink := by
  obtain ⟨au, l, vs, asnk, fb⟩ := st
  cases l with
  | nil => simp at h
  | cons a t =>
    refine ⟨rfl, rfl, rfl, ?_, rfl, rfl, rfl, rfl⟩
    intro i hi
    cases i with
    | zero => exact absurd rfl hi
    | succ j => rfl

/-- Witness for C5 on the scenario source `[111, 222]`. -/
theorem primary_ssrc_get_set_witness :
    exSource.getVideoSourceSSRC = 111 ∧
    (exSource.setVideoSourceSSRC 999).video_source_ssrc_list.getD 0 0 = 999 ∧
    (exSource.setVideoSourceSSRC 999).video_source_ssrc_list.getD 1 0 = 222 := by
  have h := primary_ssrc_get_set exSource 999 (by decide)
  exact ⟨h.1.trans rfl, h.2.2.1, (h.2.2.2.1 1 (by decide)).trans rfl⟩

/-- C6: `isVideoSourceSSRC id` is true iff `id` occurs anywhere in the full
`video_source_ssrc_list_`, and `isAudioSourceSSRC id` is true iff `id` equals
`audio_source_ssrc_`; on the scenario list `[111, 222]`, 222 is found and 333
is not. -/
theorem isSourceSSRC_membership (st : MediaSource) (ssrc : Nat) :
    (st.isVideoSourceSSRC ssrc = true ↔ ssrc ∈ st.video_source_ssrc_list) ∧
    (st.isAudioSourceSSRC ssrc = true ↔ st.audio_source_ssrc = ssrc) ∧
    exSource.isVideoSourceSSRC 222 = true ∧
    exSource.isVideoSourceSSRC 333 = false := by
  refine ⟨?_, ?_, by decide, by decide⟩
  · simp only [MediaSource.isVideoSourceSSRC]
    exact List.elem_iff
  · simp only [MediaSource.isAudioSourceSSRC]
    exact beq_iff_eq

/-- C7: `getVideoSourceSSRCList` returns a snapshot: the freshly returned
vector object holds the live list's contents at call time, is a different
object from the live list, and later in-place mutation of the live list via
`setVideoSourceSSRCList` or `setVideoSourceSSRC` leaves the snapshot's
contents unchanged. -/
theorem getVideoSourceSSRCList_snapshot (h : VecHeap) (src : Nat)
    (hv : src < h.cells.length) :
    (getVideoSourceSSRCList_heap h src).2 ≠ src ∧
    (getVideoSourceSSRCList_heap h src).1.lookup (getVideoSourceSSRCList_heap h src).2 =
      h.lookup src ∧
    (∀ v, (setVideoSourceSSRCList_heap (getVideoSourceSSRCList_heap h src).1 src v).lookup
      (getVideoSourceSSRCList_heap h src).2 = h.lookup src) ∧
    (∀ s, (setVideoSourceSSRC_heap (getVideoSourceSSRCList_heap h src).1 src s).lookup
      (getVideoSourceSSRCList_heap h src).2 = h.lookup src) := by
  have hne : src ≠ h.cells.length := Nat.ne_of_lt hv
  refine ⟨fun hc => hne hc.symm, ?_, ?_, ?_⟩
  · simp [getVideoSourceSSRCList_heap, VecHeap.alloc, VecHeap.lookup,
      List.getElem?_concat_length]
  · intro v
    simp [getVideoSourceSSRCList_heap, setVideoSourceSSRCList_heap, VecHeap.alloc,
      VecHeap.store, VecHeap.lookup, List.getElem?_set_ne hne,
      List.getElem?_concat_length]
  · intro s
    simp [getVideoSourceSSRCList_heap, setVideoSourceSSRC_heap, VecHeap.alloc,
      VecHeap.store, VecHeap.lookup, List.getElem?_set_ne hne,
      List.getElem?_concat_length]

/-- Witness for C7 on a one-cell store holding the scenario list `[111, 222]`. -/
theorem getVideoSourceSSRCList_snapshot_witness :
    (getVideoSourceSSRCList_heap exHeap 0).1.lookup
      (getVideoSourceSSRCList_heap exHeap 0).2 = [111, 222] ∧
    (setVideoSourceSSRCList_heap (getVideoSourceSSRCList_heap exHeap 0).1 0 [9]).lookup
      (getVideoSourceSSRCList_heap exHeap 0).2 = [111, 222] := by
  have h := getVideoSourceSSRCList_snapshot exHeap 0 (by decide)
  exact ⟨h.2.1.trans rfl, (h.2.2.1 [9]).trans rfl⟩

/-- C8: the public delivery operations are thin forwarders — each returns
exactly the result (status and successor state) of the private overridable
implementation, for every concrete implementation, state, and packet. -/
theorem deliver_methods_are_thin_forwarders {σ : Type}
    (fs : FeedbackSinkImpl σ) (ms : MediaSinkImpl σ) (s : σ) (p : dataPacket) :
    fs.deliverFeedback s p = fs.deliverFeedback_virt s p ∧
    ms.deliverAudioData s p = ms.deliverAudioData_virt s p ∧
    ms.deliverVideoData s p = ms.deliverVideoData_virt s p :=
  ⟨rfl, rfl, rfl⟩

/-- C9: the `(int, const unsigned char*, int)` constructor defaults the kind
to `VIDEO_PACKET`, stamps `received_time_ms` with the clock reading taken at
construction, sets `is_keyframe` to false, and leaves both layer sets empty. -/
theorem unsigned_ctor_defaults (comp_ : Int) (data_ : Nat → UInt8) (length_ : Int)
    (now_ms : Nat) :
    (dataPacket.mkUnsigned comp_ data_ length_ now_ms).type = packetType.VIDEO_PACKET ∧
    (dataPacket.mkUnsigned comp_ data_ length_ now_ms).received_time_ms = now_ms ∧
    (dataPacket.mkUnsigned comp_ data_ length_ now_ms).is_keyframe = false ∧
    (dataPacket.mkUnsigned comp_ data_ length_ now_ms).compatible_spatial_layers = [] ∧
    (dataPacket.mkUnsigned comp_ data_ length_ now_ms).compatible_temporal_layers = [] :=
  ⟨rfl, rfl, rfl, rfl, rfl⟩

/-- C10: a freshly constructed `MediaSink` has both sink SSRCs zero and a null
feedback source; a freshly constructed `MediaSource` has audio SSRC zero,
primary video SSRC zero, a null feedback sink, and both attached sinks null. -/
theorem fresh_sink_source_defaults :
    MediaSink.init.getAudioSinkSSRC = 0 ∧
    MediaSink.init.getVideoSinkSSRC = 0 ∧
    MediaSink.init.getFeedbackSource = none ∧
    MediaSource.init.getAudioSourceSSRC = 0 ∧
    MediaSource.init.getVideoSourceSSRC = 0 ∧
    MediaSource.init.getFeedbackSink = none ∧
    MediaSource.init.video_sink = none ∧
    MediaSource.init.audio_sink = none :=
  ⟨rfl, rfl, rfl, rfl, rfl, rfl, rfl, rfl⟩

end Erizo
